import Mathlib

/-!
Verification of the reMarkable screenshot capture pipeline (src/main.ts).

The development shallowly embeds the capture controller `captureScreenshot`,
the teardown helper `cleanupProcesses`, the address validator
`isValidIPAddress`, the request gate `handleScreenshotRequest`, and the
spawn configuration of the remote capture session.  Stateful event-driven
code is modelled as an explicit step function over a pipeline state,
processing one asynchronous event at a time (the host runtime delivers
events one at a time on a single thread).
-/

namespace RemarkablePlugin

/-- A spawned child process as the controller sees it: the `killed` flag that
node sets once a kill signal was delivered, plus whether invoking the kill
method would raise an exception (environment-dependent). -/
structure Proc where
  killed : Bool
  killThrows : Bool
deriving DecidableEq, Repr

/-- `proc.kill()`: raises (modelled as `Except.error`) when the environment
makes the call throw, otherwise marks the process killed. -/
def Proc.kill (p : Proc) : Except Unit Proc :=
  if p.killThrows then Except.error () else Except.ok { p with killed := true }

/-- The three pipeline stages, in the order they are pushed onto the
`processes` array: ssh (capture session), head (stream limiter),
convert (image transcoder). -/
inductive StageId where
  | sshStage
  | headStage
  | convertStage
deriving DecidableEq, Repr

/-- The outcome delivered to the caller: `resolve(filename)` or
`reject(new Error(message))`. -/
inductive CaptureOutcome where
  | success (path : String)
  | failure (message : String)
deriving DecidableEq, Repr

/-- The controller state of one `captureScreenshot` invocation:
the `pipelineCompleted` flag, the three spawned processes, and the state of
the returned promise (`none` while pending; a JS promise settles at most
once, later resolve/reject calls are no-ops). -/
structure PState where
  pipelineCompleted : Bool
  ssh : Proc
  head : Proc
  convert : Proc
  result : Option CaptureOutcome
deriving DecidableEq, Repr

/-- Access a stage's process in the state. -/
def stageProc (s : PState) : StageId → Proc
  | .sshStage => s.ssh
  | .headStage => s.head
  | .convertStage => s.convert

/-- One iteration of `cleanupProcesses`'s forEach body on a single process:
`if (proc && !proc.killed) { try { proc.kill(); } catch { log } }`. -/
def cleanProc (p : Proc) : Proc :=
  if p.killed then p
  else
    match p.kill with
    | Except.ok q => q
    | Except.error _ => p

/-- The kill() invocations the forEach body makes on a single process
(skipped when the process is already killed). -/
def killCallsFor (sid : StageId) (p : Proc) : List StageId :=
  if p.killed then [] else [sid]

/-- The console.error output of the forEach body on a single process
(the catch branch logs and swallows the exception). -/
def killLogsFor (p : Proc) : List String :=
  if p.killed then []
  else
    match p.kill with
    | Except.ok _ => []
    | Except.error _ => ["Error killing process"]

/-- Result of running `cleanupProcesses`: the updated processes plus the
observable trace (kill invocations in array order, console.error lines). -/
structure CleanupOut where
  state : PState
  killCalls : List StageId
  logs : List String
deriving DecidableEq, Repr

/-- `cleanupProcesses(processes)` over the array `[ssh, head, convert]`. -/
def cleanupProcesses (s : PState) : CleanupOut where
  state :=
    { pipelineCompleted := s.pipelineCompleted
      ssh := cleanProc s.ssh
      head := cleanProc s.head
      convert := cleanProc s.convert
      result := s.result }
  killCalls :=
    killCallsFor .sshStage s.ssh ++ killCallsFor .headStage s.head
      ++ killCallsFor .convertStage s.convert
  logs := killLogsFor s.ssh ++ killLogsFor s.head ++ killLogsFor s.convert

/-- Settling the promise: `resolve`/`reject` delivers the outcome to the
caller only if the promise is still pending; afterwards it is a no-op.
Returns the new state and the outcome delivered this call (if any). -/
def settle (s : PState) (r : CaptureOutcome) : PState × Option CaptureOutcome :=
  match s.result with
  | some _ => (s, none)
  | none => ({ s with result := some r }, some r)

/-- The asynchronous events `captureScreenshot` registers handlers for. -/
inductive Event where
  | sshError (msg : String)
  | headError (msg : String)
  | convertError (msg : String)
  | convertClose (code : Int)
  | headClose
  | timeoutFired
  | sshStdoutError (code : String)
  | headStdinError (code : String)
  | convertStderrData (data : String)
deriving DecidableEq, Repr

/-- Whether an event is the transcoder's close event. -/
def Event.isConvertClose : Event → Bool
  | .convertClose _ => true
  | _ => false

/-- Observable effect of processing one event: the new controller state, the
kill() invocations made, the console.error lines, the resolve/reject calls
attempted, and the outcome actually delivered to the caller (if the promise
was still pending). -/
structure StepOut where
  state : PState
  killCalls : List StageId
  logs : List String
  attempts : List CaptureOutcome
  resolved : Option CaptureOutcome
deriving DecidableEq, Repr

/-- A handler that does nothing observable. -/
def noop (s : PState) : StepOut :=
  { state := s, killCalls := [], logs := [], attempts := [], resolved := none }

/-- The shared body of the three stage-error handlers and the timeout
handler: `if (!pipelineCompleted) { cleanupProcesses(processes); reject(err) }`. -/
def failStep (s : PState) (msg : String) : StepOut :=
  if s.pipelineCompleted then noop s
  else
    let c := cleanupProcesses s
    let p := settle c.state (CaptureOutcome.failure msg)
    { state := p.1, killCalls := c.killCalls, logs := c.logs,
      attempts := [CaptureOutcome.failure msg], resolved := p.2 }

/-- One event-handler activation of `captureScreenshot`, translated handler
by handler from the source.  `imageFolder` and `filename` parameterize the
resolved relative path. -/
def step (imageFolder filename : String) (s : PState) (e : Event) : StepOut :=
  match e with
  | .sshError m =>
      failStep s ("SSH connection failed: " ++ m ++
        ". Ensure sshpass is installed and credentials are correct.")
  | .headError m =>
      failStep s ("Head command failed: " ++ m)
  | .convertError m =>
      failStep s ("ImageMagick failed: " ++ m ++ ". Ensure ImageMagick is installed.")
  | .convertClose code =>
      let s0 := { s with pipelineCompleted := true }
      let c := cleanupProcesses s0
      let r := if code = 0 then CaptureOutcome.success (imageFolder ++ "/" ++ filename)
               else CaptureOutcome.failure ("ImageMagick exited with code " ++ toString code)
      let p := settle c.state r
      { state := p.1, killCalls := c.killCalls, logs := c.logs,
        attempts := [r], resolved := p.2 }
  | .headClose =>
      -- the handler has no try/catch around ssh.kill()
      if s.ssh.killed then noop s
      else
        match s.ssh.kill with
        | Except.ok q =>
            { state := { s with ssh := q }, killCalls := [.sshStage], logs := [],
              attempts := [], resolved := none }
        | Except.error _ =>
            { state := s, killCalls := [.sshStage], logs := [],
              attempts := [], resolved := none }
  | .timeoutFired =>
      failStep s "Screenshot capture timed out. Check network connection and device status."
  | .sshStdoutError code =>
      if code = "EPIPE" then noop s
      else { state := s, killCalls := [], logs := ["SSH stdout error"],
             attempts := [], resolved := none }
  | .headStdinError code =>
      if code = "EPIPE" then noop s
      else { state := s, killCalls := [], logs := ["Head stdin error"],
             attempts := [], resolved := none }
  | .convertStderrData d =>
      { state := s, killCalls := [], logs := ["ImageMagick stderr: " ++ d],
        attempts := [], resolved := none }

/-- Process a list of events in arrival order, threading the state. -/
def runState (imageFolder filename : String) (s : PState) : List Event → PState
  | [] => s
  | e :: es => runState imageFolder filename (step imageFolder filename s e).state es

/-- The outcomes delivered to the caller over a list of events. -/
def runResolved (imageFolder filename : String) (s : PState) : List Event → List CaptureOutcome
  | [] => []
  | e :: es =>
      (step imageFolder filename s e).resolved.toList
        ++ runResolved imageFolder filename (step imageFolder filename s e).state es

theorem settle_of_some (s : PState) (r r0 : CaptureOutcome) (h : s.result = some r0) :
    settle s r = (s, none) := by
  simp [settle, h]

theorem step_result_stable (imageFolder filename : String) (s : PState) (e : Event)
    (r : CaptureOutcome) (h : s.result = some r) :
    (step imageFolder filename s e).state.result = some r
      ∧ (step imageFolder filename s e).resolved = none := by
  cases e
  case headClose =>
    by_cases hk : s.ssh.killed
    · simp [step, noop, hk, h]
    · by_cases ht : s.ssh.killThrows <;> simp [step, Proc.kill, hk, ht, h]
  all_goals
    simp [step, failStep, noop, settle, cleanupProcesses, Proc.kill, h] <;>
      split <;> simp [noop, h]

/-- C1: once the capture promise has settled (any terminal state), every
subsequent stage event — later process errors, a later transcoder close,
the timeout firing after resolution — leaves the delivered CaptureResult
unchanged and never delivers a second outcome to the caller. -/
theorem capture_single_resolution (imageFolder filename : String) (s : PState)
    (es : List Event) (r : CaptureOutcome) (h : s.result = some r) :
    (runState imageFolder filename s es).result = some r
      ∧ runResolved imageFolder filename s es = [] := by
  induction es generalizing s with
  | nil => exact ⟨h, rfl⟩
  | cons e es ih =>
      obtain ⟨h1, h2⟩ := step_result_stable imageFolder filename s e r h
      obtain ⟨h3, h4⟩ := ih ((step imageFolder filename s e).state) h1
      constructor
      · simpa [runState] using h3
      · simp [runResolved, h2, h4]

/-- A state in which the pipeline already resolved successfully. -/
def settledState : PState :=
  { pipelineCompleted := true
    ssh := { killed := true, killThrows := false }
    head := { killed := true, killThrows := false }
    convert := { killed := true, killThrows := false }
    result := some (CaptureOutcome.success "attachments/shot.png") }

/-- Witness for C1 at a concrete settled state and concrete late events. -/
theorem capture_single_resolution_witness :
    (runState "attachments" "shot.png" settledState
        [Event.timeoutFired, Event.sshError "boom", Event.convertClose 1]).result
      = some (CaptureOutcome.success "attachments/shot.png")
    ∧ runResolved "attachments" "shot.png" settledState
        [Event.timeoutFired, Event.sshError "boom", Event.convertClose 1] = [] :=
  capture_single_resolution "attachments" "shot.png" settledState
    [Event.timeoutFired, Event.sshError "boom", Event.convertClose 1]
    (CaptureOutcome.success "attachments/shot.png") rfl

theorem mem_cleanup_killCalls (s : PState) (sid : StageId) :
    sid ∈ (cleanupProcesses s).killCalls ↔ (stageProc s sid).killed = false := by
  cases sid <;>
    cases h1 : s.ssh.killed <;> cases h2 : s.head.killed <;> cases h3 : s.convert.killed <;>
      simp [cleanupProcesses, killCallsFor, stageProc, h1, h2, h3]

theorem mem_cleanup_logs (s : PState) (sid : StageId)
    (h1 : (stageProc s sid).killed = false) (h2 : (stageProc s sid).killThrows = true) :
    "Error killing process" ∈ (cleanupProcesses s).logs := by
  cases sid <;>
    simp [stageProc] at h1 h2 <;>
    simp [cleanupProcesses, killLogsFor, Proc.kill, h1, h2]

theorem step_resolved_cleanup (imageFolder filename : String) (s : PState) (e : Event)
    (r : CaptureOutcome) (h : (step imageFolder filename s e).resolved = some r) :
    (step imageFolder filename s e).killCalls = (cleanupProcesses s).killCalls
    ∧ (step imageFolder filename s e).logs = (cleanupProcesses s).logs
    ∧ (step imageFolder filename s e).state.result = some r := by
  cases e
  case headClose =>
    by_cases hk : s.ssh.killed
    · simp [step, noop, hk] at h
    · by_cases ht : s.ssh.killThrows <;> simp [step, Proc.kill, hk, ht] at h
  case sshStdoutError code =>
    by_cases hc : code = "EPIPE" <;> simp [step, noop, hc] at h
  case headStdinError code =>
    by_cases hc : code = "EPIPE" <;> simp [step, noop, hc] at h
  case convertStderrData d =>
    simp [step] at h
  all_goals
    by_cases hc : s.pipelineCompleted <;>
      rcases hres : s.result with _ | r0 <;>
      simp [step, failStep, noop, settle, cleanupProcesses, hc, hres] at h ⊢ <;>
      simp [h]

/-- C2: whenever an event's processing reaches a terminal state (delivers the
capture outcome), the controller invokes kill on exactly the stage processes
whose killed flag is not yet set, a kill exception of a still-alive stage is
logged rather than propagated, and the outcome is still delivered. -/
theorem terminal_teardown_kills_alive (imageFolder filename : String) (s : PState)
    (e : Event) (r : CaptureOutcome)
    (h : (step imageFolder filename s e).resolved = some r) :
    (∀ sid, sid ∈ (step imageFolder filename s e).killCalls
        ↔ (stageProc s sid).killed = false)
    ∧ (∀ sid, (stageProc s sid).killed = false → (stageProc s sid).killThrows = true →
        "Error killing process" ∈ (step imageFolder filename s e).logs)
    ∧ (step imageFolder filename s e).state.result = some r := by
  obtain ⟨hk, hl, hr⟩ := step_resolved_cleanup imageFolder filename s e r h
  refine ⟨?_, ?_, hr⟩
  · intro sid
    rw [hk]
    exact mem_cleanup_killCalls s sid
  · intro sid h1 h2
    rw [hl]
    exact mem_cleanup_logs s sid h1 h2

/-- A running state: ssh alive, head alive but with a throwing kill, convert
already stopped, promise pending. -/
def teardownSample : PState :=
  { pipelineCompleted := false
    ssh := { killed := false, killThrows := false }
    head := { killed := false, killThrows := true }
    convert := { killed := true, killThrows := false }
    result := none }

/-- Witness for C2: the timeout fires in `teardownSample`. -/
theorem terminal_teardown_kills_alive_witness :
    (StageId.headStage ∈ (step "attachments" "shot.png" teardownSample
        Event.timeoutFired).killCalls
      ↔ (stageProc teardownSample StageId.headStage).killed = false)
    ∧ "Error killing process" ∈ (step "attachments" "shot.png" teardownSample
        Event.timeoutFired).logs
    ∧ (step "attachments" "shot.png" teardownSample Event.timeoutFired).state.result
      = some (CaptureOutcome.failure
          "Screenshot capture timed out. Check network connection and device status.") :=
  ⟨(terminal_teardown_kills_alive "attachments" "shot.png" teardownSample
      Event.timeoutFired _ rfl).1 StageId.headStage,
   (terminal_teardown_kills_alive "attachments" "shot.png" teardownSample
      Event.timeoutFired _ rfl).2.1 StageId.headStage rfl rfl,
   (terminal_teardown_kills_alive "attachments" "shot.png" teardownSample
      Event.timeoutFired _ rfl).2.2⟩

theorem settle_fst_pipelineCompleted (s : PState) (r : CaptureOutcome) :
    (settle s r).1.pipelineCompleted = s.pipelineCompleted := by
  cases h : s.result <;> simp [settle, h]

/-- C7: whenever the stream limiter (head) closes — also on the success
path, and regardless of the completion flag or which stage failed — the
controller kills the capture session (ssh) process unless its killed flag is
already set; the other stages and the promise are untouched. -/
theorem limiter_close_kills_upstream (imageFolder filename : String) (s : PState) :
    (StageId.sshStage ∈ (step imageFolder filename s Event.headClose).killCalls
      ↔ s.ssh.killed = false)
    ∧ (s.ssh.killed = false → s.ssh.killThrows = false →
        (step imageFolder filename s Event.headClose).state.ssh.killed = true)
    ∧ (s.ssh.killed = true → step imageFolder filename s Event.headClose = noop s)
    ∧ (step imageFolder filename s Event.headClose).resolved = none
    ∧ (step imageFolder filename s Event.headClose).state.head = s.head
    ∧ (step imageFolder filename s Event.headClose).state.convert = s.convert := by
  by_cases hk : s.ssh.killed
  · simp [step, noop, hk]
  · by_cases ht : s.ssh.killThrows <;> simp [step, Proc.kill, noop, hk, ht]

/-- A running state with every stage alive and the promise pending. -/
def upstreamSample : PState :=
  { pipelineCompleted := false
    ssh := { killed := false, killThrows := false }
    head := { killed := false, killThrows := false }
    convert := { killed := false, killThrows := false }
    result := none }

/-- Witness for C7 at a concrete running state. -/
theorem limiter_close_kills_upstream_witness :
    (StageId.sshStage ∈ (step "attachments" "shot.png" upstreamSample
        Event.headClose).killCalls
      ↔ upstreamSample.ssh.killed = false)
    ∧ (upstreamSample.ssh.killed = false → upstreamSample.ssh.killThrows = false →
        (step "attachments" "shot.png" upstreamSample Event.headClose).state.ssh.killed = true)
    ∧ (upstreamSample.ssh.killed = true →
        step "attachments" "shot.png" upstreamSample Event.headClose = noop upstreamSample)
    ∧ (step "attachments" "shot.png" upstreamSample Event.headClose).resolved = none
    ∧ (step "attachments" "shot.png" upstreamSample Event.headClose).state.head
        = upstreamSample.head
    ∧ (step "attachments" "shot.png" upstreamSample Event.headClose).state.convert
        = upstreamSample.convert :=
  limiter_close_kills_upstream "attachments" "shot.png" upstreamSample

/-- C8: a pipe-level error with code EPIPE on the capture session's stdout or
the limiter's stdin is silently suppressed (no observable effect at all); any
other pipe-level error is only logged as a diagnostic — in neither case does
the state, the kill set, or the promise change. -/
theorem pipe_epipe_suppressed (imageFolder filename : String) (s : PState) (code : String) :
    step imageFolder filename s (Event.sshStdoutError "EPIPE") = noop s
    ∧ step imageFolder filename s (Event.headStdinError "EPIPE") = noop s
    ∧ (code ≠ "EPIPE" →
        step imageFolder filename s (Event.sshStdoutError code)
          = { state := s, killCalls := [], logs := ["SSH stdout error"],
              attempts := [], resolved := none }
        ∧ step imageFolder filename s (Event.headStdinError code)
          = { state := s, killCalls := [], logs := ["Head stdin error"],
              attempts := [], resolved := none }) := by
  refine ⟨by simp [step], by simp [step], fun hc => ⟨?_, ?_⟩⟩ <;> simp [step, hc]

/-- Witness for C8 with the concrete non-EPIPE code ECONNRESET. -/
theorem pipe_epipe_suppressed_witness :
    step "attachments" "shot.png" upstreamSample (Event.sshStdoutError "ECONNRESET")
      = { state := upstreamSample, killCalls := [], logs := ["SSH stdout error"],
          attempts := [], resolved := none }
    ∧ step "attachments" "shot.png" upstreamSample (Event.headStdinError "ECONNRESET")
      = { state := upstreamSample, killCalls := [], logs := ["Head stdin error"],
          attempts := [], resolved := none } :=
  (pipe_epipe_suppressed "attachments" "shot.png" upstreamSample "ECONNRESET").2.2
    (by decide)

/-- C10: the completion flag is set by the transcoder's close event alone —
after any step the flag is the old flag joined with "the event was the
transcoder's close".  Consequently, after an error-path rejection the flag is
still false, the rejection was delivered, and a timeout firing afterwards
re-runs cleanup (its kill calls are exactly those of cleanupProcesses on the
post-rejection state) and attempts another rejection that the already-settled
promise turns into a no-op. -/
theorem completion_flag_convert_close_only (imageFolder filename : String) (s : PState)
    (e : Event) (msg : String) :
    ((step imageFolder filename s e).state.pipelineCompleted
        = (s.pipelineCompleted || e.isConvertClose))
    ∧ (s.pipelineCompleted = false → s.result = none →
        ((step imageFolder filename s (Event.sshError msg)).state.pipelineCompleted = false
        ∧ (step imageFolder filename s (Event.sshError msg)).resolved
            = some (CaptureOutcome.failure ("SSH connection failed: " ++ msg ++
                ". Ensure sshpass is installed and credentials are correct."))
        ∧ (step imageFolder filename
              (step imageFolder filename s (Event.sshError msg)).state
              Event.timeoutFired).killCalls
            = (cleanupProcesses
                (step imageFolder filename s (Event.sshError msg)).state).killCalls
        ∧ (step imageFolder filename
              (step imageFolder filename s (Event.sshError msg)).state
              Event.timeoutFired).attempts
            = [CaptureOutcome.failure
                "Screenshot capture timed out. Check network connection and device status."]
        ∧ (step imageFolder filename
              (step imageFolder filename s (Event.sshError msg)).state
              Event.timeoutFired).resolved = none
        ∧ (step imageFolder filename
              (step imageFolder filename s (Event.sshError msg)).state
              Event.timeoutFired).state.result
            = (step imageFolder filename s (Event.sshError msg)).state.result)) := by
  constructor
  · cases e
    case headClose =>
      by_cases hk : s.ssh.killed
      · simp [step, noop, hk, Event.isConvertClose]
      · by_cases ht : s.ssh.killThrows <;>
          simp [step, Proc.kill, hk, ht, Event.isConvertClose]
    case sshStdoutError code =>
      by_cases hc : code = "EPIPE" <;> simp [step, noop, hc, Event.isConvertClose]
    case headStdinError code =>
      by_cases hc : code = "EPIPE" <;> simp [step, noop, hc, Event.isConvertClose]
    case convertStderrData d => simp [step, Event.isConvertClose]
    all_goals
      by_cases hc : s.pipelineCompleted <;>
        rcases hres : s.result with _ | r0 <;>
        simp [step, failStep, noop, settle, cleanupProcesses, Event.isConvertClose,
          hc, hres]
  · intro hflag hres
    refine ⟨?_, ?_, ?_, ?_, ?_, ?_⟩ <;>
      simp [step, failStep, noop, settle, cleanupProcesses, hflag, hres]

/-- Witness for C10: a fresh running state, an ssh launch error, then the
late timeout. -/
theorem completion_flag_convert_close_only_witness :
    ((step "attachments" "shot.png" upstreamSample Event.headClose).state.pipelineCompleted
        = (upstreamSample.pipelineCompleted || Event.headClose.isConvertClose))
    ∧ ((step "attachments" "shot.png" upstreamSample (Event.sshError "boom")).state.pipelineCompleted = false
    ∧ (step "attachments" "shot.png" upstreamSample (Event.sshError "boom")).resolved
        = some (CaptureOutcome.failure ("SSH connection failed: " ++ "boom" ++
            ". Ensure sshpass is installed and credentials are correct."))
    ∧ (step "attachments" "shot.png"
          (step "attachments" "shot.png" upstreamSample (Event.sshError "boom")).state
          Event.timeoutFired).killCalls
        = (cleanupProcesses
            (step "attachments" "shot.png" upstreamSample (Event.sshError "boom")).state).killCalls
    ∧ (step "attachments" "shot.png"
          (step "attachments" "shot.png" upstreamSample (Event.sshError "boom")).state
          Event.timeoutFired).attempts
        = [CaptureOutcome.failure
            "Screenshot capture timed out. Check network connection and device status."]
    ∧ (step "attachments" "shot.png"
          (step "attachments" "shot.png" upstreamSample (Event.sshError "boom")).state
          Event.timeoutFired).resolved = none
    ∧ (step "attachments" "shot.png"
          (step "attachments" "shot.png" upstreamSample (Event.sshError "boom")).state
          Event.timeoutFired).state.result
        = (step "attachments" "shot.png" upstreamSample (Event.sshError "boom")).state.result) :=
  ⟨(completion_flag_convert_close_only "attachments" "shot.png" upstreamSample
      Event.headClose "boom").1,
   (completion_flag_convert_close_only "attachments" "shot.png" upstreamSample
      Event.headClose "boom").2 rfl rfl⟩

/-- The argument vector of the stream-limiter spawn: head -c 5271552. -/
def headSpawnArgs : List String := ["-c", "5271552"]

/-- The limiter's byte budget as a number (the literal on the command line). -/
def headByteCount : Nat := 5271552

/-- Modelled from the spec: the external head utility (invoked with -c N,
not part of this repository's sources) reads bytes from its input in arrival
order and forwards them to its output until N bytes have been forwarded,
then completes regardless of remaining upstream data.  Input and output are
chunk lists (arbitrary chunk boundaries). -/
def headRun (n : Nat) : List (List Nat) → List (List Nat)
  | [] => []
  | chunk :: rest =>
      if n = 0 then []
      else if chunk.length ≤ n then chunk :: headRun (n - chunk.length) rest
      else [chunk.take n]

theorem headRun_flatten (n : Nat) (chunks : List (List Nat)) :
    (headRun n chunks).flatten = chunks.flatten.take n := by
  induction chunks generalizing n with
  | nil => simp [headRun]
  | cons c rest ih =>
      by_cases h0 : n = 0
      · simp [headRun, h0]
      · by_cases hle : c.length ≤ n
        · simp only [headRun, h0, hle, if_false, if_true, List.flatten_cons, ih,
            List.take_append_eq_append_take, List.take_of_length_le hle]
        · have hlt : n ≤ c.length := Nat.le_of_lt (Nat.lt_of_not_le hle)
          simp [headRun, h0, hle, List.take_append_eq_append_take,
            Nat.sub_eq_zero_of_le hlt]

/-- C3: the stream limiter is spawned with the byte-count literal 5271552,
which equals the device geometry product 1408 times 1872 times 2; on an
upstream with at least that many bytes the limiter forwards exactly that
many bytes, independently of the chunk boundaries of the input. -/
theorem head_limiter_byte_exact (chunks chunks2 : List (List Nat))
    (h : headByteCount ≤ chunks.flatten.length)
    (h2 : chunks2.flatten = chunks.flatten) :
    headSpawnArgs = ["-c", toString (1408 * 1872 * 2)]
    ∧ headByteCount = 1408 * 1872 * 2
    ∧ (headRun headByteCount chunks).flatten = chunks.flatten.take headByteCount
    ∧ (headRun headByteCount chunks).flatten.length = headByteCount
    ∧ (headRun headByteCount chunks2).flatten = (headRun headByteCount chunks).flatten := by
  refine ⟨by decide, by decide, headRun_flatten _ _, ?_, ?_⟩
  · rw [headRun_flatten, List.length_take]
    exact Nat.min_eq_left h
  · rw [headRun_flatten, headRun_flatten, h2]

/-- Witness for C3: a single 5271552-byte chunk, re-chunked as 2000000 plus
3271552 bytes. -/
theorem head_limiter_byte_exact_witness :
    headSpawnArgs = ["-c", toString (1408 * 1872 * 2)]
    ∧ headByteCount = 1408 * 1872 * 2
    ∧ (headRun headByteCount [List.replicate 5271552 0]).flatten
        = ([List.replicate 5271552 0] : List (List Nat)).flatten.take headByteCount
    ∧ (headRun headByteCount [List.replicate 5271552 0]).flatten.length = headByteCount
    ∧ (headRun headByteCount
          [List.replicate 2000000 0, List.replicate 3271552 0]).flatten
        = (headRun headByteCount [List.replicate 5271552 0]).flatten :=
  head_limiter_byte_exact [List.replicate 5271552 0]
    [List.replicate 2000000 0, List.replicate 3271552 0]
    (by simp only [List.flatten_cons, List.flatten_nil, List.append_nil,
          List.length_replicate, headByteCount, le_refl])
    (by simp only [List.flatten_cons, List.flatten_nil, List.append_nil,
          ← List.replicate_add])

/-- parseInt(octet, 10) on an all-digit string: its decimal value. -/
def parseDec (p : List Char) : Nat :=
  p.foldl (fun a c => 10 * a + (c.toNat - 48)) 0

/-- split('.') on the character list of a string. -/
def splitDot : List Char → List (List Char)
  | [] => [[]]
  | c :: rest =>
      match splitDot rest with
      | [] => [[]]
      | p :: ps => if c = '.' then [] :: p :: ps else (c :: p) :: ps

/-- One group of the regex test: one to three digit characters.  The regex
of the source anchors four such groups separated by dots, which holds of a
string iff its dot-split has exactly four parts of this shape. -/
def octetShape (p : List Char) : Bool :=
  decide (1 ≤ p.length) && decide (p.length ≤ 3) && p.all Char.isDigit

/-- The per-octet range test num >= 0 && num <= 255 (the lower bound is
automatic: parseInt of a digit string is a natural number). -/
def octetRange (p : List Char) : Bool :=
  decide (0 ≤ parseDec p) && decide (parseDec p ≤ 255)

/-- isValidIPAddress from the source: the regex pre-test (four dot-separated
groups of one to three digits), then each dot-separated octet parsed with
parseInt and required to lie in 0..255. -/
def isValidIPAddress (ip : String) : Bool :=
  (decide ((splitDot ip.data).length = 4) && (splitDot ip.data).all octetShape)
    && (splitDot ip.data).all octetRange

/-- The claim's validity predicate, following the spec's words: the string
consists of four dot-separated integers (nonempty digit strings), each with
value in [0,255]. -/
def specDottedQuad (s : String) : Prop :=
  ∃ p1 p2 p3 p4 : List Char,
    s.data = p1 ++ '.' :: (p2 ++ '.' :: (p3 ++ '.' :: p4))
    ∧ ∀ p ∈ [p1, p2, p3, p4],
        1 ≤ p.length ∧ (∀ c ∈ p, c.isDigit = true) ∧ parseDec p ≤ 255

/-- The amended predicate: as `specDottedQuad`, but each octet is written
with one to three digits. -/
def dottedQuadShort (s : String) : Prop :=
  ∃ p1 p2 p3 p4 : List Char,
    s.data = p1 ++ '.' :: (p2 ++ '.' :: (p3 ++ '.' :: p4))
    ∧ ∀ p ∈ [p1, p2, p3, p4],
        1 ≤ p.length ∧ p.length ≤ 3 ∧ (∀ c ∈ p, c.isDigit = true) ∧ parseDec p ≤ 255

theorem splitDot_ne_nil (l : List Char) : splitDot l ≠ [] := by
  cases l with
  | nil => simp [splitDot]
  | cons c rest =>
      cases h : splitDot rest with
      | nil => simp [splitDot, h]
      | cons p ps => by_cases hc : c = '.' <;> simp [splitDot, h, hc]

/-- Joining with '.' separators, the inverse of `splitDot`. -/
def joinDot : List (List Char) → List Char
  | [] => []
  | [p] => p
  | p :: q :: ps => p ++ '.' :: joinDot (q :: ps)

theorem joinDot_splitDot (l : List Char) : joinDot (splitDot l) = l := by
  induction l with
  | nil => rfl
  | cons c rest ih =>
      cases h : splitDot rest with
      | nil => exact absurd h (splitDot_ne_nil rest)
      | cons p ps =>
          rw [h] at ih
          by_cases hc : c = '.'
          · subst hc
            simp only [splitDot, h, if_pos rfl, joinDot, List.nil_append]
            rw [ih]
          · simp only [splitDot, h, if_neg hc]
            cases ps with
            | nil =>
                simp only [joinDot] at ih ⊢
                rw [ih]
            | cons q qs =>
                simp only [joinDot] at ih ⊢
                rw [List.cons_append, ih]

theorem splitDot_dotfree (p : List Char) (h : ∀ c ∈ p, c ≠ '.') :
    splitDot p = [p] := by
  induction p with
  | nil => rfl
  | cons a t ih =>
      have ht : ∀ c ∈ t, c ≠ '.' := fun c hc => h c (List.mem_cons_of_mem a hc)
      have ha : a ≠ '.' := h a (List.mem_cons_self a t)
      simp [splitDot, ih ht, ha]

theorem splitDot_append_dot (p l : List Char) (h : ∀ c ∈ p, c ≠ '.') :
    splitDot (p ++ '.' :: l) = p :: splitDot l := by
  induction p with
  | nil =>
      cases hl : splitDot l with
      | nil => exact absurd hl (splitDot_ne_nil l)
      | cons q qs => simp [splitDot, hl]
  | cons a t ih =>
      have ht : ∀ c ∈ t, c ≠ '.' := fun c hc => h c (List.mem_cons_of_mem a hc)
      have ha : a ≠ '.' := h a (List.mem_cons_self a t)
      simp [splitDot, ih ht, ha]

theorem ne_dot_of_isDigit (c : Char) (h : c.isDigit = true) : c ≠ '.' := by
  intro hc
  rw [hc] at h
  exact absurd h (by decide)

theorem isValid_forward (s : String) (h : isValidIPAddress s = true) :
    dottedQuadShort s := by
  rw [isValidIPAddress] at h
  simp only [Bool.and_eq_true, decide_eq_true_eq, List.all_eq_true] at h
  obtain ⟨⟨hlen, hshape⟩, hrange⟩ := h
  rcases hsp : splitDot s.data with _ | ⟨p1, _ | ⟨p2, _ | ⟨p3, _ | ⟨p4, _ | ⟨p5, rest⟩⟩⟩⟩⟩ <;>
    rw [hsp] at hlen <;> simp at hlen
  rw [hsp] at hshape hrange
  have heq : s.data = p1 ++ '.' :: (p2 ++ '.' :: (p3 ++ '.' :: p4)) := by
    have hj := joinDot_splitDot s.data
    rw [hsp] at hj
    simpa [joinDot] using hj.symm
  refine ⟨p1, p2, p3, p4, heq, ?_⟩
  intro p hp
  have h1 := hshape p hp
  have h2 := hrange p hp
  simp only [octetShape, octetRange, Bool.and_eq_true, decide_eq_true_eq,
    List.all_eq_true] at h1 h2
  exact ⟨h1.1.1, h1.1.2, h1.2, h2.2⟩

theorem isValid_backward (s : String) (h : dottedQuadShort s) :
    isValidIPAddress s = true := by
  obtain ⟨p1, p2, p3, p4, heq, hcond⟩ := h
  have hdf : ∀ p ∈ [p1, p2, p3, p4], ∀ c ∈ p, c ≠ '.' := by
    intro p hp c hc
    exact ne_dot_of_isDigit c ((hcond p hp).2.2.1 c hc)
  have hsp : splitDot s.data = [p1, p2, p3, p4] := by
    rw [heq]
    rw [splitDot_append_dot p1 _ (hdf p1 (by simp))]
    rw [splitDot_append_dot p2 _ (hdf p2 (by simp))]
    rw [splitDot_append_dot p3 _ (hdf p3 (by simp))]
    rw [splitDot_dotfree p4 (hdf p4 (by simp))]
  rw [isValidIPAddress, hsp]
  simp only [List.length_cons, List.length_nil, Bool.and_eq_true, decide_eq_true_eq,
    List.all_eq_true]
  refine ⟨⟨trivial, ?_⟩, ?_⟩
  · intro p hp
    obtain ⟨c1, c2, c3, _⟩ := hcond p hp
    simp only [octetShape, Bool.and_eq_true, decide_eq_true_eq, List.all_eq_true]
    exact ⟨⟨c1, c2⟩, c3⟩
  · intro p hp
    obtain ⟨_, _, _, c4⟩ := hcond p hp
    simp only [octetRange, Bool.and_eq_true, decide_eq_true_eq]
    exact ⟨Nat.zero_le _, c4⟩

/-- C4 counterexample: "1.1.1.0255" consists of four dot-separated integers
each in [0,255] (the last one written with a leading zero), yet the validator
rejects it — the claimed equivalence fails as stated. -/
theorem ip_validator_claim_counterexample :
    ¬ (isValidIPAddress "1.1.1.0255" = true ↔ specDottedQuad "1.1.1.0255") := by
  intro hiff
  have hspec : specDottedQuad "1.1.1.0255" :=
    ⟨['1'], ['1'], ['1'], ['0', '2', '5', '5'], by decide, by decide⟩
  exact absurd (hiff.mpr hspec) (by decide)

/-- C4 (amended): the validator accepts a string iff it consists of four
dot-separated digit groups of one to three digits each, every group's value
at most 255; the spec's four concrete vectors behave as claimed. -/
theorem isValidIPAddress_characterization :
    (∀ s : String, isValidIPAddress s = true ↔ dottedQuadShort s)
    ∧ isValidIPAddress "999.1.1.1" = false
    ∧ isValidIPAddress "1.2.3" = false
    ∧ isValidIPAddress "abc.1.1.1" = false
    ∧ isValidIPAddress "10.11.99.1" = true :=
  ⟨fun s => ⟨isValid_forward s, isValid_backward s⟩,
    by decide, by decide, by decide, by decide⟩

/-- Witness for C4 (amended) at the concrete default address. -/
theorem isValidIPAddress_characterization_witness :
    (isValidIPAddress "10.11.99.1" = true ↔ dottedQuadShort "10.11.99.1")
    ∧ isValidIPAddress "999.1.1.1" = false :=
  ⟨isValidIPAddress_characterization.1 "10.11.99.1",
   isValidIPAddress_characterization.2.1⟩

/-- The branch taken by handleScreenshotRequest. -/
inductive RequestOutcome where
  | invalidAddress
  | captureStarted
  | notReachable
  | probeFailed
deriving DecidableEq, Repr

/-- Pipeline processes spawned from each branch: insertScreenshot (which
runs captureScreenshot and spawns ssh, head and convert) is invoked only
from the reachable branch; the other branches only show a notice. -/
def requestSpawnCount : RequestOutcome → Nat
  | .captureStarted => 3
  | _ => 0

/-- handleScreenshotRequest: validate the configured address first; only if
it is well formed, probe the device and react to the verdict.  probeResult
records how the reachability promise settles (some b = resolved with b,
none = the check itself failed, taken by the catch branch).  Also returns
whether the liveness probe was issued at all. -/
def handleScreenshotRequest (sshHost : String) (probeResult : Option Bool) :
    RequestOutcome × Bool :=
  if isValidIPAddress sshHost = false then (.invalidAddress, false)
  else
    match probeResult with
    | some true => (.captureStarted, true)
    | some false => (.notReachable, true)
    | none => (.probeFailed, true)

/-- C5: the capture pipeline is started iff the address validates and the
probe resolves reachable; a malformed address short-circuits with no probe
and zero spawns; an unreachable verdict never starts the capture; the
concrete address 10.11.99.999 fails validation immediately. -/
theorem preflight_gating (sshHost : String) (probeResult : Option Bool) :
    ((handleScreenshotRequest sshHost probeResult).1 = RequestOutcome.captureStarted
      ↔ (isValidIPAddress sshHost = true ∧ probeResult = some true))
    ∧ (isValidIPAddress sshHost = false →
        handleScreenshotRequest sshHost probeResult
            = (RequestOutcome.invalidAddress, false)
          ∧ requestSpawnCount (handleScreenshotRequest sshHost probeResult).1 = 0)
    ∧ (probeResult = some false →
        (handleScreenshotRequest sshHost probeResult).1 ≠ RequestOutcome.captureStarted)
    ∧ handleScreenshotRequest "10.11.99.999" probeResult
        = (RequestOutcome.invalidAddress, false) := by
  have h999 : isValidIPAddress "10.11.99.999" = false := by decide
  cases hv : isValidIPAddress sshHost <;>
    rcases probeResult with _ | b <;> (try cases b) <;>
      simp [handleScreenshotRequest, requestSpawnCount, hv, h999]

/-- Witness for C5: the default address with the probe mocked unreachable. -/
theorem preflight_gating_witness :
    ((handleScreenshotRequest "10.11.99.1" (some false)).1
        = RequestOutcome.captureStarted
      ↔ (isValidIPAddress "10.11.99.1" = true ∧ (some false : Option Bool) = some true))
    ∧ (isValidIPAddress "10.11.99.1" = false →
        handleScreenshotRequest "10.11.99.1" (some false)
            = (RequestOutcome.invalidAddress, false)
          ∧ requestSpawnCount (handleScreenshotRequest "10.11.99.1" (some false)).1 = 0)
    ∧ ((some false : Option Bool) = some false →
        (handleScreenshotRequest "10.11.99.1" (some false)).1
          ≠ RequestOutcome.captureStarted)
    ∧ handleScreenshotRequest "10.11.99.999" (some false)
        = (RequestOutcome.invalidAddress, false) :=
  preflight_gating "10.11.99.1" (some false)

/-- One spawn invocation: command, argument vector, child environment. -/
structure SpawnSpec where
  cmd : String
  args : List String
  env : List (String × String)
deriving DecidableEq, Repr

/-- JS object-spread update (spread base, then one binding): replaces the
value of an existing key in place, otherwise appends the binding. -/
def envWith (base : List (String × String)) (k v : String) :
    List (String × String) :=
  if base.any (fun kv => decide (kv.1 = k)) then
    base.map (fun kv => if kv.1 = k then (k, v) else kv)
  else base ++ [(k, v)]

/-- Environment lookup by key. -/
def envLookup (e : List (String × String)) (k : String) : Option String :=
  (e.find? (fun kv => decide (kv.1 = k))).map (fun kv => kv.2)

/-- The capture-session spawn of captureScreenshot: a truthy (nonempty)
password selects sshpass -e with SSHPASS injected into the child
environment; otherwise plain ssh with the process environment passed
through (the password-less branch of the source keeps the literal "ssh" at
the head of its argument list). -/
def sshSpawnSpec (sshHost sshPassword : String)
    (baseEnv : List (String × String)) : SpawnSpec :=
  if sshPassword ≠ "" then
    { cmd := "sshpass"
      args := ["-e", "ssh", "root@" ++ sshHost, "cat /dev/fb0"]
      env := envWith baseEnv "SSHPASS" sshPassword }
  else
    { cmd := "ssh"
      args := ["ssh", "root@" ++ sshHost, "cat /dev/fb0"]
      env := baseEnv }

theorem envLookup_map_update (k v : String) (l : List (String × String))
    (h : l.any (fun kv => decide (kv.1 = k)) = true) :
    envLookup (l.map (fun kv => if kv.1 = k then (k, v) else kv)) k = some v := by
  induction l with
  | nil => simp at h
  | cons kv t ih =>
      by_cases hk : kv.1 = k
      · simp [envLookup, hk]
      · have ht : t.any (fun kv => decide (kv.1 = k)) = true := by
          simpa [List.any_cons, hk] using h
        simpa [envLookup, hk] using ih ht

theorem envLookup_append_single (k v : String) (l : List (String × String))
    (h : l.any (fun kv => decide (kv.1 = k)) = false) :
    envLookup (l ++ [(k, v)]) k = some v := by
  induction l with
  | nil => simp [envLookup]
  | cons kv t ih =>
      simp only [List.any_cons, Bool.or_eq_false_iff, decide_eq_false_iff_not] at h
      simpa [envLookup, h.1] using ih h.2

theorem envLookup_envWith (base : List (String × String)) (k v : String) :
    envLookup (envWith base k v) k = some v := by
  rw [envWith]
  cases h : base.any (fun kv => decide (kv.1 = k)) with
  | true => simpa [h] using envLookup_map_update k v base h
  | false => simpa [h] using envLookup_append_single k v base h

/-- C6: with a credential set, the capture session is spawned as sshpass
with an argument list of four fixed strings in which the secret does not
occur — the secret reaches the child only through the SSHPASS environment
variable; with no credential, plain ssh is spawned and the environment is
passed through unmodified. -/
theorem credential_in_env_not_args (sshHost sshPassword : String)
    (baseEnv : List (String × String)) (hpw : sshPassword ≠ "")
    (hne : sshPassword ∉
      (["-e", "ssh", "root@" ++ sshHost, "cat /dev/fb0"] : List String)) :
    (sshSpawnSpec sshHost sshPassword baseEnv).cmd = "sshpass"
    ∧ (sshSpawnSpec sshHost sshPassword baseEnv).args
        = ["-e", "ssh", "root@" ++ sshHost, "cat /dev/fb0"]
    ∧ sshPassword ∉ (sshSpawnSpec sshHost sshPassword baseEnv).args
    ∧ envLookup (sshSpawnSpec sshHost sshPassword baseEnv).env "SSHPASS"
        = some sshPassword
    ∧ (sshSpawnSpec sshHost "" baseEnv).cmd = "ssh"
    ∧ (sshSpawnSpec sshHost "" baseEnv).env = baseEnv := by
  refine ⟨by simp [sshSpawnSpec, hpw], by simp [sshSpawnSpec, hpw], ?_,
    by simp [sshSpawnSpec, hpw, envLookup_envWith],
    by simp [sshSpawnSpec], by simp [sshSpawnSpec]⟩
  simpa [sshSpawnSpec, hpw] using hne

/-- Witness for C6 at a concrete host, password and environment. -/
theorem credential_in_env_not_args_witness :
    (sshSpawnSpec "10.11.99.1" "hunter2" [("PATH", "/usr/bin")]).cmd = "sshpass"
    ∧ (sshSpawnSpec "10.11.99.1" "hunter2" [("PATH", "/usr/bin")]).args
        = ["-e", "ssh", "root@" ++ "10.11.99.1", "cat /dev/fb0"]
    ∧ "hunter2" ∉ (sshSpawnSpec "10.11.99.1" "hunter2" [("PATH", "/usr/bin")]).args
    ∧ envLookup (sshSpawnSpec "10.11.99.1" "hunter2" [("PATH", "/usr/bin")]).env "SSHPASS"
        = some "hunter2"
    ∧ (sshSpawnSpec "10.11.99.1" "" [("PATH", "/usr/bin")]).cmd = "ssh"
    ∧ (sshSpawnSpec "10.11.99.1" "" [("PATH", "/usr/bin")]).env = [("PATH", "/usr/bin")] :=
  credential_in_env_not_args "10.11.99.1" "hunter2" [("PATH", "/usr/bin")]
    (by decide) (by decide)

/-- C9: the empty-string credential is falsy and takes the password-less
branch: plain ssh with the source's fixed argument list and exactly the
unmodified base environment — no SSHPASS binding, no sshpass wrapper. -/
theorem empty_password_plain_ssh (sshHost : String)
    (baseEnv : List (String × String)) :
    sshSpawnSpec sshHost "" baseEnv
      = { cmd := "ssh", args := ["ssh", "root@" ++ sshHost, "cat /dev/fb0"],
          env := baseEnv } := by
  simp [sshSpawnSpec]

end RemarkablePlugin
